import Mathlib

/-!
Shallow embedding of the stable-fun-new issuance engine
(programs/stable-fun-new/src) and proofs about its claims.

Machine integers are modelled as `Nat` (respectively `Int` for `i64`
timestamps); the `checked_*` Rust operations become `Option Nat`
computations with the width bound made explicit, and `as uN` casts become
`% 2^N`.  Fallible Rust functions returning `Result<T>` become
`Except Err T`.
-/

/-- The program's error enum (`error.rs`), restricted to the variants the
embedded code paths can surface, together with `UnauthorizedMint` and
`UnauthorizedUpdate` used by the account constraints, and `AccountError`
standing for a host-level account-load failure. -/
inductive Err where
  | NameTooShort
  | SymbolTooShort
  | InvalidName
  | InvalidSymbol
  | InvalidCurrency
  | InvalidAmount
  | InvalidOraclePrice
  | StaleOraclePrice
  | MathOverflow
  | InvalidTokenAccount
  | InvalidVault
  | MaxSupplyExceeded
  | InsufficientBalance
  | InvalidOracle
  | InvalidMint
  | InvalidStablebond
  | InvalidVaultAccount
  | MintingPaused
  | RedeemingPaused
  | CollateralRatioTooLow
  | CollateralRatioTooHigh
  | FeeTooHigh
  | AmountTooSmall
  | AmountTooLarge
  | InvalidMaxSupply
  | UnauthorizedMint
  | UnauthorizedUpdate
  | AccountError
  deriving DecidableEq, Repr

/-- Decidable equality for `Except`, so concrete runs can be settled by
`decide`. -/
instance {ε α : Type} [DecidableEq ε] [DecidableEq α] :
    DecidableEq (Except ε α) := fun x y =>
  match x, y with
  | Except.ok a, Except.ok b =>
    if h : a = b then isTrue (by rw [h]) else isFalse (by simp [h])
  | Except.error a, Except.error b =>
    if h : a = b then isTrue (by rw [h]) else isFalse (by simp [h])
  | Except.ok _, Except.error _ => isFalse (by simp)
  | Except.error _, Except.ok _ => isFalse (by simp)

/-- 2^64, the modulus of `u64`. -/
def U64 : Nat := 18446744073709551616

/-- 2^32, the modulus of `u32`. -/
def U32 : Nat := 4294967296

/-- 2^16, the modulus of `u16`. -/
def U16 : Nat := 65536

/-- 2^128, the modulus of `u128`. -/
def U128 : Nat := 340282366920938463463374607431768211456

/-- `u64::checked_add`. -/
def checked_add64 (a b : Nat) : Option Nat :=
  if a + b < U64 then some (a + b) else none

/-- `u64::checked_sub`. -/
def checked_sub64 (a b : Nat) : Option Nat :=
  if b ≤ a then some (a - b) else none

/-- `u64::checked_mul`. -/
def checked_mul64 (a b : Nat) : Option Nat :=
  if a * b < U64 then some (a * b) else none

/-- `u64::checked_div` (fails only on division by zero). -/
def checked_div64 (a b : Nat) : Option Nat :=
  if b = 0 then none else some (a / b)

/-- `u32::checked_add`. -/
def checked_add32 (a b : Nat) : Option Nat :=
  if a + b < U32 then some (a + b) else none

/-- `u128::checked_mul`. -/
def checked_mul128 (a b : Nat) : Option Nat :=
  if a * b < U128 then some (a * b) else none

/-- `u128::checked_div` (fails only on division by zero). -/
def checked_div128 (a b : Nat) : Option Nat :=
  if b = 0 then none else some (a / b)

/-- `i128 as u64`: truncating two's-complement cast. -/
def wrap64 (z : Int) : Nat := (z % (U64 : Int)).toNat

/-- `utils/validation.rs` constant `MIN_TRANSACTION_AMOUNT`. -/
def MIN_TRANSACTION_AMOUNT : Nat := 1000

/-- `utils/validation.rs` constant `MAX_TRANSACTION_AMOUNT`. -/
def MAX_TRANSACTION_AMOUNT : Nat := 1000000000000

/-- `utils/validation.rs` constant `MIN_COLLATERAL_RATIO_BPS` (100 percent). -/
def MIN_COLLATERAL_RATIO_BPS : Nat := 10000

/-- `utils/validation.rs` constant `MAX_COLLATERAL_RATIO_BPS` (300 percent). -/
def MAX_COLLATERAL_RATIO_BPS : Nat := 30000

/-- `utils/validation.rs` constant `MAX_FEE_BPS`. -/
def MAX_FEE_BPS : Nat := 1000

namespace ValidationService

/-- `ValidationService::validate_amount` (`utils/validation.rs`): a single
`require!` whose range test covers both bounds and whose error is
`AmountTooSmall` in both directions. -/
def validate_amount (amount : Nat) : Except Err Unit :=
  if MIN_TRANSACTION_AMOUNT ≤ amount ∧ amount ≤ MAX_TRANSACTION_AMOUNT then
    Except.ok ()
  else Except.error Err.AmountTooSmall

/-- `ValidationService::validate_collateral_ratio` (`utils/validation.rs`):
wide `u128` multiply/divide, wrapping `as u16` narrowing, then a range
check `(min_ratio..=MAX_COLLATERAL_RATIO_BPS).contains(&ratio)` failing
with `CollateralRatioTooLow`. -/
def validate_collateral_ratio (collateral supply min_ratio : Nat) :
    Except Err Unit :=
  if supply = 0 then Except.ok ()
  else
    match (checked_mul128 collateral 10000).bind
        (fun v => checked_div128 v supply) with
    | none => Except.error Err.MathOverflow
    | some wide =>
      let ratio := wide % U16
      if min_ratio ≤ ratio ∧ ratio ≤ MAX_COLLATERAL_RATIO_BPS then Except.ok ()
      else Except.error Err.CollateralRatioTooLow

end ValidationService

/-- `StablecoinVault` state record (`state/vault.rs`); pubkeys are `Nat`. -/
structure StablecoinVault where
  stablecoin_mint : Nat
  authority : Nat
  collateral_account : Nat
  total_collateral : Nat
  total_value_locked : Nat
  current_ratio : Nat
  last_deposit_time : Int
  last_withdrawal_time : Int
  deposit_count : Nat
  withdrawal_count : Nat
  deriving DecidableEq, Repr

/-- `StablecoinVault::update_collateral_ratio` (`state/vault.rs`): zero when
either operand is zero, otherwise the wide quotient narrowed with
`u16::try_from`, which fails with `MathOverflow` when it does not fit. -/
def StablecoinVault.update_collateral_ratio (v : StablecoinVault) :
    Except Err StablecoinVault :=
  if v.total_value_locked = 0 ∨ v.total_collateral = 0 then
    Except.ok { v with current_ratio := 0 }
  else
    match checked_mul128 v.total_value_locked 10000 with
    | none => Except.error Err.MathOverflow
    | some x =>
      match checked_div128 x v.total_collateral with
      | none => Except.error Err.MathOverflow
      | some r =>
        if r < U16 then Except.ok { v with current_ratio := r }
        else Except.error Err.MathOverflow

/-- `ValidationService::update_collateral_ratio` (`utils/validation.rs`):
same computation but the narrowing is a wrapping `as u16` cast. -/
def ValidationService.update_collateral_ratio (v : StablecoinVault) :
    Except Err StablecoinVault :=
  if v.total_value_locked = 0 ∨ v.total_collateral = 0 then
    Except.ok { v with current_ratio := 0 }
  else
    match (checked_mul128 v.total_value_locked 10000).bind
        (fun x => checked_div128 x v.total_collateral) with
    | none => Except.error Err.MathOverflow
    | some r => Except.ok { v with current_ratio := r % U16 }

/-- `StablecoinSettings` (`state/stablecoin.rs`). -/
structure StablecoinSettings where
  fee_basis_points : Nat
  max_supply : Nat
  min_collateral_ratio : Nat
  mint_paused : Bool
  redeem_paused : Bool
  deriving DecidableEq, Repr

/-- `StablecoinStats` (`state/stablecoin.rs`); `reserved` bytes elided. -/
structure StablecoinStats where
  total_minted : Nat
  total_burned : Nat
  total_fees : Nat
  holder_count : Nat
  deriving DecidableEq, Repr

/-- `StablecoinMint` account (`state/stablecoin.rs`); pubkeys are `Nat`,
metadata strings are byte lists so that Rust `len()` is `List.length`. -/
structure StablecoinMint where
  authority : Nat
  name : List Nat
  symbol : List Nat
  target_currency : List Nat
  token_mint : Nat
  stablebond_mint : Nat
  price_feed : Nat
  vault : Nat
  current_supply : Nat
  created_at : Int
  last_updated : Int
  settings : StablecoinSettings
  stats : StablecoinStats
  deriving DecidableEq, Repr

/-- The pair of persistent accounts a Mint/Redeem transition mutates. -/
structure ProgramState where
  mint : StablecoinMint
  vault : StablecoinVault
  deriving DecidableEq, Repr

/-- One request to the external token ledger (the CPI calls of the
handlers), carrying the requested amount. -/
inductive ExtCall where
  | transfer (amount : Nat)
  | mintTo (amount : Nat)
  | burn (amount : Nat)
  deriving DecidableEq, Repr

/-- Outcome of running a handler body over in-memory accounts: `ok` with the
final state, `err` with the state as mutated so far, or a Rust panic; each
carries the list of external token-ledger requests issued up to that
point. -/
inductive TxResult where
  | ok (s : ProgramState) (calls : List ExtCall)
  | err (e : Err) (s : ProgramState) (calls : List ExtCall)
  | panicked (calls : List ExtCall)
  deriving DecidableEq, Repr

/-- `math::calculate_token_amount` (`utils/math.rs`):
`amount * price / 10^decimals` with checked `u64` steps.  Exact for
`decimals ≤ 19`; for larger exponents the Rust `10u64.pow` itself
overflows `u64`. -/
def calculate_token_amount (amount price decimals : Nat) : Except Err Nat :=
  match (checked_mul64 amount price).bind
      (fun v => checked_div64 v (10 ^ decimals)) with
  | none => Except.error Err.MathOverflow
  | some v => Except.ok v

/-- `math::checked_mul` (`utils/math.rs`). -/
def math.checked_mul (a b : Nat) : Except Err Nat :=
  match checked_mul64 a b with
  | none => Except.error Err.MathOverflow
  | some v => Except.ok v

/-- `math::checked_div` (`utils/math.rs`). -/
def math.checked_div (a b : Nat) : Except Err Nat :=
  match checked_div64 a b with
  | none => Except.error Err.MathOverflow
  | some v => Except.ok v

/-- `instructions/mint.rs handler` (lines 72-188).  `oracle` is the outcome
of `OracleService::verify_oracle_price` on the price-feed account (an
external input), `decimals` the token mint's decimals, `now` the clock.
`require!(amount > 0)` is rendered as its contrapositive test
`amount = 0`.  The supply-cap line calls `.unwrap()` on `checked_add`, so
an overflow there is a Rust panic, not an error return. -/
def mintHandler (s : ProgramState) (amount : Nat) (oracle : Except Err Nat)
    (decimals : Nat) (now : Int) : TxResult :=
  if s.mint.settings.mint_paused then .err .MintingPaused s []
  else if amount = 0 then .err .InvalidAmount s []
  else
    match checked_add64 s.mint.current_supply amount with
    | none => .panicked []
    | some newSupply =>
      if newSupply ≤ s.mint.settings.max_supply then
        match oracle with
        | .error e => .err e s []
        | .ok price =>
          match calculate_token_amount amount price decimals with
          | .error e => .err e s []
          | .ok collateral_amount =>
            match (checked_mul64 amount s.mint.settings.fee_basis_points).bind
                (fun v => checked_div64 v 10000) with
            | none => .err .MathOverflow s []
            | some fee_amount =>
              match checked_add64 amount fee_amount with
              | none => .err .MathOverflow s []
              | some total_amount =>
                let calls : List ExtCall :=
                  [.transfer collateral_amount, .mintTo total_amount]
                match checked_add64 s.vault.total_collateral collateral_amount with
                | none => .err .MathOverflow s calls
                | some tc =>
                  let s1 : ProgramState :=
                    { s with vault := { s.vault with total_collateral := tc } }
                  match checked_add64 s1.vault.total_value_locked amount with
                  | none => .err .MathOverflow s1 calls
                  | some tvl =>
                    let s2 : ProgramState :=
                      { s1 with vault :=
                        { s1.vault with total_value_locked := tvl } }
                    match checked_add32 s2.vault.deposit_count 1 with
                    | none => .err .MathOverflow s2 calls
                    | some dc =>
                      let s3 : ProgramState :=
                        { s2 with vault :=
                          { s2.vault with deposit_count := dc,
                                          last_deposit_time := now } }
                      match ValidationService.update_collateral_ratio s3.vault with
                      | .error e => .err e s3 calls
                      | .ok v4 =>
                        let s4 : ProgramState := { s3 with vault := v4 }
                        match checked_add64 s4.mint.current_supply total_amount with
                        | none => .err .MathOverflow s4 calls
                        | some ns =>
                          let s5 : ProgramState :=
                            { s4 with mint :=
                              { s4.mint with current_supply := ns } }
                          match checked_add64 s5.mint.stats.total_minted amount with
                          | none => .err .MathOverflow s5 calls
                          | some tm =>
                            let s6 : ProgramState :=
                              { s5 with mint :=
                                { s5.mint with stats :=
                                  { s5.mint.stats with total_minted := tm } } }
                            match checked_add64 s6.mint.stats.total_fees fee_amount with
                            | none => .err .MathOverflow s6 calls
                            | some tf =>
                              .ok
                                { s6 with mint :=
                                  { s6.mint with
                                      last_updated := now
                                      stats :=
                                        { s6.mint.stats with total_fees := tf } } }
                                calls
      else .err .MaxSupplyExceeded s []

/-- `instructions/redeem.rs handler` (lines 72-200).  `user_balance` is
`user_token_account.amount`; the burn and transfer CPIs are issued before
any record field is written. -/
def redeemHandler (s : ProgramState) (amount user_balance : Nat)
    (oracle : Except Err Nat) (decimals : Nat) (now : Int) : TxResult :=
  if s.mint.settings.redeem_paused then .err .RedeemingPaused s []
  else if amount = 0 then .err .InvalidAmount s []
  else if user_balance < amount then .err .InsufficientBalance s []
  else
    match ValidationService.validate_amount amount with
    | .error e => .err e s []
    | .ok _ =>
      match oracle with
      | .error e => .err e s []
      | .ok price =>
        match calculate_token_amount amount price decimals with
        | .error e => .err e s []
        | .ok collateral_amount =>
          match (checked_mul64 amount s.mint.settings.fee_basis_points).bind
              (fun v => checked_div64 v 10000) with
          | none => .err .MathOverflow s []
          | some fee_amount =>
            match checked_add64 amount fee_amount with
            | none => .err .MathOverflow s []
            | some burn_amount =>
              match checked_sub64 s.vault.total_collateral collateral_amount with
              | none => .err .MathOverflow s []
              | some remaining_collateral =>
                match checked_sub64 s.mint.current_supply burn_amount with
                | none => .err .MathOverflow s []
                | some remaining_supply =>
                  match (if 0 < remaining_supply then
                      ValidationService.validate_collateral_ratio
                        remaining_collateral remaining_supply
                        s.mint.settings.min_collateral_ratio
                    else Except.ok ()) with
                  | .error e => .err e s []
                  | .ok _ =>
                    let calls : List ExtCall :=
                      [.burn burn_amount, .transfer collateral_amount]
                    let s1 : ProgramState :=
                      { s with vault :=
                        { s.vault with total_collateral := remaining_collateral } }
                    match checked_sub64 s1.vault.total_value_locked amount with
                    | none => .err .MathOverflow s1 calls
                    | some tvl =>
                      let s2 : ProgramState :=
                        { s1 with vault :=
                          { s1.vault with total_value_locked := tvl } }
                      match checked_add32 s2.vault.withdrawal_count 1 with
                      | none => .err .MathOverflow s2 calls
                      | some wc =>
                        let s3 : ProgramState :=
                          { s2 with vault :=
                            { s2.vault with withdrawal_count := wc,
                                            last_withdrawal_time := now } }
                        let s4 : ProgramState :=
                          { s3 with mint :=
                            { s3.mint with current_supply := remaining_supply } }
                        match checked_add64 s4.mint.stats.total_burned amount with
                        | none => .err .MathOverflow s4 calls
                        | some tb =>
                          let s5 : ProgramState :=
                            { s4 with mint :=
                              { s4.mint with stats :=
                                { s4.mint.stats with total_burned := tb } } }
                          match checked_add64 s5.mint.stats.total_fees fee_amount with
                          | none => .err .MathOverflow s5 calls
                          | some tf =>
                            .ok
                              { s5 with mint :=
                                { s5.mint with
                                    last_updated := now
                                    stats :=
                                      { s5.mint.stats with total_fees := tf } } }
                              calls

/-- `UpdateSettingsParams` (`instructions/update.rs`). -/
structure UpdateSettingsParams where
  min_collateral_ratio : Option Nat
  fee_basis_points : Option Nat
  max_supply : Option Nat
  mint_paused : Option Bool
  redeem_paused : Option Bool
  deriving DecidableEq, Repr

/-- `instructions/update.rs handler` for UpdateSettings: each provided field
is assigned unconditionally except `max_supply`, which alone is guarded by
`new_max_supply >= current_supply`. -/
def updateSettingsHandler (s0 : StablecoinMint) (params : UpdateSettingsParams)
    (now : Int) : Except Err StablecoinMint :=
  let s1 := match params.min_collateral_ratio with
    | some newRatio =>
      { s0 with settings := { s0.settings with min_collateral_ratio := newRatio } }
    | none => s0
  let s2 := match params.fee_basis_points with
    | some newFee =>
      { s1 with settings := { s1.settings with fee_basis_points := newFee } }
    | none => s1
  let applyPauses := fun (s : StablecoinMint) =>
    let sa := match params.mint_paused with
      | some p => { s with settings := { s.settings with mint_paused := p } }
      | none => s
    let sb := match params.redeem_paused with
      | some p => { sa with settings := { sa.settings with redeem_paused := p } }
      | none => sa
    Except.ok { sb with last_updated := now }
  match params.max_supply with
  | some m =>
    if s2.current_supply ≤ m then
      applyPauses { s2 with settings := { s2.settings with max_supply := m } }
    else Except.error Err.InvalidMaxSupply
  | none => applyPauses s2

/-- `lib.rs update_settings` entry: the account constraint
`stablecoin_mint.authority == authority.key()` followed by the outer floor
`params.min_collateral_ratio.unwrap_or(MIN_COLLATERAL_RATIO) >=
MIN_COLLATERAL_RATIO`, then the handler. -/
def updateSettingsEntry (caller : Nat) (s : StablecoinMint)
    (params : UpdateSettingsParams) (now : Int) : Except Err StablecoinMint :=
  if s.authority ≠ caller then Except.error Err.UnauthorizedUpdate
  else if params.min_collateral_ratio.getD MIN_COLLATERAL_RATIO_BPS <
      MIN_COLLATERAL_RATIO_BPS then
    Except.error Err.CollateralRatioTooLow
  else updateSettingsHandler s params now

/-- `UpdateMetadataParams` (`instructions/update.rs`); strings as byte lists. -/
structure UpdateMetadataParams where
  name : Option (List Nat)
  symbol : Option (List Nat)
  icon_uri : Option (List Nat)
  deriving DecidableEq, Repr

/-- `instructions/update.rs update_metadata` with its authority account
constraint: bounds are re-checked per provided field. -/
def updateMetadataEntry (caller : Nat) (s : StablecoinMint)
    (params : UpdateMetadataParams) (now : Int) : Except Err StablecoinMint :=
  if s.authority ≠ caller then Except.error Err.UnauthorizedUpdate
  else
    match params.name with
    | some newName =>
      if newName ≠ [] ∧ newName.length ≤ 32 then
        let s1 := { s with name := newName }
        match params.symbol with
        | some newSymbol =>
          if newSymbol ≠ [] ∧ newSymbol.length ≤ 10 then
            Except.ok { s1 with symbol := newSymbol, last_updated := now }
          else Except.error Err.InvalidSymbol
        | none => Except.ok { s1 with last_updated := now }
      else Except.error Err.InvalidName
    | none =>
      match params.symbol with
      | some newSymbol =>
        if newSymbol ≠ [] ∧ newSymbol.length ≤ 10 then
          Except.ok { s with symbol := newSymbol, last_updated := now }
        else Except.error Err.InvalidSymbol
      | none => Except.ok { s with last_updated := now }

/-- `instructions/initialize.rs` constant `MIN_NAME_LENGTH`. -/
def MIN_NAME_LENGTH : Nat := 3

/-- `instructions/initialize.rs` constant `MIN_SYMBOL_LENGTH`. -/
def MIN_SYMBOL_LENGTH : Nat := 2

/-- `instructions/initialize.rs` constant `DEFAULT_COLLATERAL_RATIO` value. -/
def DEFAULT_COLLATERAL_RATIO_BPS : Nat := 15000

/-- `instructions/initialize.rs handler`: validates metadata, requires a
positive oracle mantissa (`none` models a failing `get_result`), then
creates both records with the default settings (`max_supply = u64::MAX`)
and zeroed vault counters.  The pubkeys of the freshly created accounts
are inputs. -/
def initializeHandler (authority : Nat) (name symbol target_currency : List Nat)
    (oracle_mantissa : Option Int)
    (stablecoin_mint_key token_mint_key stablebond_mint_key price_feed_key
      vault_key vault_token_account_key : Nat)
    (now : Int) : Except Err ProgramState :=
  if name.length < MIN_NAME_LENGTH then Except.error Err.NameTooShort
  else if symbol.length < MIN_SYMBOL_LENGTH then Except.error Err.SymbolTooShort
  else if target_currency = [] then Except.error Err.InvalidCurrency
  else
    match oracle_mantissa with
    | none => Except.error Err.InvalidOraclePrice
    | some mantissa =>
      if 0 < mantissa then
        Except.ok
          { mint :=
            { authority := authority
              name := name
              symbol := symbol
              target_currency := target_currency
              token_mint := token_mint_key
              stablebond_mint := stablebond_mint_key
              price_feed := price_feed_key
              vault := vault_key
              current_supply := 0
              created_at := now
              last_updated := now
              settings :=
                { fee_basis_points := 30
                  max_supply := U64 - 1
                  min_collateral_ratio := DEFAULT_COLLATERAL_RATIO_BPS
                  mint_paused := false
                  redeem_paused := false }
              stats :=
                { total_minted := 0, total_burned := 0, total_fees := 0,
                  holder_count := 0 } }
            vault :=
            { stablecoin_mint := stablecoin_mint_key
              authority := authority
              collateral_account := vault_token_account_key
              total_collateral := 0
              total_value_locked := 0
              current_ratio := 0
              last_deposit_time := now
              last_withdrawal_time := now
              deposit_count := 0
              withdrawal_count := 0 } }
      else Except.error Err.InvalidOraclePrice

/-- `utils/oracle.rs` constant `MAX_PRICE_STALENESS` (seconds). -/
def MAX_PRICE_STALENESS : Int := 300

/-- `utils/oracle.rs` constant `PRICE_DECIMALS`. -/
def PRICE_DECIMALS : Nat := 6

/-- `utils/oracle.rs` constant `MAX_ORACLE_CONFIDENCE`. -/
def MAX_ORACLE_CONFIDENCE : Nat := 100000

/-- `utils/oracle.rs` constant `MIN_ORACLE_COUNT`. -/
def MIN_ORACLE_COUNT : Nat := 1

/-- `utils/oracle.rs` constant `MAX_ORACLE_COUNT`. -/
def MAX_ORACLE_COUNT : Nat := 3

/-- The switchboard decimal result (`get_result()` payload): an `i128`
mantissa and a `u32` scale. -/
structure SwitchboardDecimal where
  mantissa : Int
  scale : Nat
  deriving DecidableEq, Repr

/-- `OraclePrice` (`utils/oracle.rs`). -/
structure OraclePrice where
  value : Nat
  decimals : Nat
  last_updated : Int
  confidence : Nat
  deriving DecidableEq, Repr

/-- `OraclePrice::from_switchboard`: `value` and `confidence` are both
`result.mantissa as u64`, `decimals` is `result.scale as u8`, and
`last_updated` is the round-open timestamp. -/
def OraclePrice.from_switchboard (result : SwitchboardDecimal)
    (round_open_timestamp : Int) : OraclePrice :=
  { value := wrap64 result.mantissa
    decimals := result.scale % 256
    last_updated := round_open_timestamp
    confidence := wrap64 result.mantissa }

/-- `i64::MAX`. -/
def i64Max : Int := 9223372036854775807

/-- `i64::MIN`. -/
def i64Min : Int := -9223372036854775808

/-- `i64::saturating_sub`. -/
def saturating_sub_i64 (a b : Int) : Int :=
  if i64Max < a - b then i64Max else if a - b < i64Min then i64Min else a - b

/-- `OraclePrice::is_stale`. -/
def OraclePrice.is_stale (p : OraclePrice) (now : Int) : Bool :=
  MAX_PRICE_STALENESS < saturating_sub_i64 now p.last_updated

/-- `OraclePrice::standardize`: rescale `value` from `decimals` to
`PRICE_DECIMALS` by checked divide/multiply.  Exact for exponent
differences at most 19 (`10u64.pow` itself overflows beyond that). -/
def OraclePrice.standardize (p : OraclePrice) : Except Err Nat :=
  if p.decimals = PRICE_DECIMALS then Except.ok p.value
  else if PRICE_DECIMALS < p.decimals then
    match checked_div64 p.value (10 ^ (p.decimals - PRICE_DECIMALS)) with
    | none => Except.error Err.MathOverflow
    | some v => Except.ok v
  else
    match checked_mul64 p.value (10 ^ (PRICE_DECIMALS - p.decimals)) with
    | none => Except.error Err.MathOverflow
    | some v => Except.ok v

/-- One switchboard aggregator account as the oracle service sees it:
either unloadable, or loaded with an optional decimal result (`none`
models a failing `get_result()`) and the round-open timestamp. -/
inductive OracleAccount where
  | unloadable
  | loaded (result : Option SwitchboardDecimal) (round_open_timestamp : Int)
  deriving DecidableEq, Repr

/-- `OracleService::get_price`: load, require a positive round-open
timestamp, then convert. -/
def OracleService.get_price : OracleAccount → Except Err OraclePrice
  | OracleAccount.unloadable => Except.error Err.AccountError
  | OracleAccount.loaded result t =>
    if 0 < t then
      match result with
      | none => Except.error Err.InvalidOraclePrice
      | some r => Except.ok (OraclePrice.from_switchboard r t)
    else Except.error Err.InvalidOracle

/-- `OracleService::validate_price`: positive value, then staleness, then
the confidence bound (defaulting to `MAX_ORACLE_CONFIDENCE`), in that
order. -/
def OracleService.validate_price (price : OraclePrice)
    (max_confidence_interval : Option Nat) (now : Int) : Except Err Unit :=
  if price.value = 0 then Except.error Err.InvalidOraclePrice
  else if price.is_stale now then Except.error Err.StaleOraclePrice
  else if max_confidence_interval.getD MAX_ORACLE_CONFIDENCE < price.confidence
    then Except.error Err.InvalidOraclePrice
  else Except.ok ()

/-- `OracleService::verify_oracle_price`: `get_price`, `validate_price`
with the default confidence bound, then `standardize`. -/
def OracleService.verify_oracle_price (feed : OracleAccount) (now : Int) :
    Except Err Nat :=
  match OracleService.get_price feed with
  | Except.error e => Except.error e
  | Except.ok price =>
    match OracleService.validate_price price none now with
    | Except.error e => Except.error e
    | Except.ok _ => price.standardize

/-- Insert one price into a list that is already ascending by `value`
(helper for the embedding of Rust's in-place `sort_by`). -/
def insertByValue (p : OraclePrice) : List OraclePrice → List OraclePrice
  | [] => [p]
  | q :: qs => if p.value < q.value then p :: q :: qs else q :: insertByValue p qs

/-- Sorting by ascending `value`, the comparator of
`prices.sort_by(|a, b| a.value.cmp(&b.value))`. -/
def sortByValue : List OraclePrice → List OraclePrice
  | [] => []
  | p :: ps => insertByValue p (sortByValue ps)

/-- The sample-collection loop of `OracleService::get_median_price`: take
up to `MAX_ORACLE_COUNT` accounts and keep each one whose `get_price`
succeeds and whose `validate_price` passes; failing samples are silently
dropped. -/
def validOraclePrices (accounts : List OracleAccount) (now : Int) :
    List OraclePrice :=
  (accounts.take MAX_ORACLE_COUNT).filterMap fun acc =>
    match OracleService.get_price acc with
    | Except.ok p =>
      match OracleService.validate_price p none now with
      | Except.ok _ => some p
      | Except.error _ => none
    | Except.error _ => none

/-- Out-of-range index fallback (never reached on the `ok` path). -/
def defaultOraclePrice : OraclePrice :=
  { value := 0, decimals := 0, last_updated := 0, confidence := 0 }

/-- `OracleService::get_median_price`: between 1 and 3 accounts, at least
one surviving sample, and the element at index `len / 2` of the
`value`-sorted survivors. -/
def OracleService.get_median_price (accounts : List OracleAccount)
    (now : Int) : Except Err OraclePrice :=
  if MIN_ORACLE_COUNT ≤ accounts.length ∧ accounts.length ≤ MAX_ORACLE_COUNT then
    let prices := validOraclePrices accounts now
    if prices.isEmpty then Except.error Err.InvalidOraclePrice
    else
      let sorted := sortByValue prices
      Except.ok (sorted.getD (sorted.length / 2) defaultOraclePrice)
  else Except.error Err.InvalidOracle

/-- The non-record accounts of the `MintStablecoin` context
(`instructions/mint.rs`), as the pubkeys its Anchor constraints compare. -/
structure MintAccounts where
  user : Nat
  stablecoin_mint_key : Nat
  token_mint_key : Nat
  user_token_mint : Nat
  user_token_owner : Nat
  user_stablebond_mint : Nat
  user_stablebond_owner : Nat
  vault_stablebond_key : Nat
  price_feed_key : Nat
  deriving DecidableEq, Repr

/-- The `#[derive(Accounts)]` constraints of `MintStablecoin`, evaluated in
declaration order; the first is `stablecoin_mint.authority == user.key()`
failing with `UnauthorizedMint`. -/
def mintAccountsCheck (a : MintAccounts) (s : ProgramState) : Except Err Unit :=
  if s.mint.authority ≠ a.user then Except.error Err.UnauthorizedMint
  else if s.vault.stablecoin_mint ≠ a.stablecoin_mint_key then
    Except.error Err.InvalidVault
  else if a.token_mint_key ≠ s.mint.token_mint then Except.error Err.InvalidMint
  else if a.user_token_mint ≠ a.token_mint_key then
    Except.error Err.InvalidTokenAccount
  else if a.user_token_owner ≠ a.user then Except.error Err.InvalidTokenAccount
  else if a.user_stablebond_mint ≠ s.mint.stablebond_mint then
    Except.error Err.InvalidStablebond
  else if a.user_stablebond_owner ≠ a.user then Except.error Err.InvalidStablebond
  else if a.vault_stablebond_key ≠ s.vault.collateral_account then
    Except.error Err.InvalidVaultAccount
  else if a.price_feed_key ≠ s.mint.price_feed then Except.error Err.InvalidOracle
  else Except.ok ()

/-- The full Mint transition as dispatched: Anchor account validation, the
`lib.rs mint` entry's `require!(amount > 0)`, then the handler. -/
def mintEntry (a : MintAccounts) (s : ProgramState) (amount : Nat)
    (oracle : Except Err Nat) (decimals : Nat) (now : Int) : TxResult :=
  match mintAccountsCheck a s with
  | Except.error e => TxResult.err e s []
  | Except.ok _ =>
    if amount = 0 then TxResult.err Err.InvalidAmount s []
    else mintHandler s amount oracle decimals now

/-- C8 (counterexample): `validate_amount` on an amount just above
`MAX_TRANSACTION_AMOUNT` fails with `AmountTooSmall`, not the
`AmountTooLarge` the claim requires. -/
theorem validate_amount_above_max_err_code :
    ValidationService.validate_amount 1000000000001 =
      Except.error Err.AmountTooSmall ∧
    Err.AmountTooSmall ≠ Err.AmountTooLarge :=
  ⟨rfl, by decide⟩

/-- C8 (amended): `validate_amount` succeeds exactly on
`[MIN_TRANSACTION_AMOUNT, MAX_TRANSACTION_AMOUNT]` and fails with the
single error code `AmountTooSmall` on both sides of the range. -/
theorem validate_amount_spec (amount : Nat) :
    ValidationService.validate_amount amount =
      (if amount < MIN_TRANSACTION_AMOUNT then Except.error Err.AmountTooSmall
       else if MAX_TRANSACTION_AMOUNT < amount then
         Except.error Err.AmountTooSmall
       else Except.ok ()) := by
  unfold ValidationService.validate_amount
  unfold MIN_TRANSACTION_AMOUNT MAX_TRANSACTION_AMOUNT
  split_ifs <;> first | rfl | omega

/-- C5 (counterexample): with collateral 4, supply 1 and minimum ratio
10000 the wide ratio is 40000, which is at least the minimum, yet
`validate_collateral_ratio` rejects it: the upper bound
`MAX_COLLATERAL_RATIO_BPS` is enforced, not advisory. -/
theorem validate_collateral_ratio_upper_bound_enforced :
    ValidationService.validate_collateral_ratio 4 1 10000 =
      Except.error Err.CollateralRatioTooLow ∧
    4 * 10000 / 1 = 40000 ∧
    MIN_COLLATERAL_RATIO_BPS ≤ 40000 ∧ MAX_COLLATERAL_RATIO_BPS < 40000 :=
  ⟨rfl, by decide, by decide, by decide⟩

/-- C5 (amended): for any `u64` inputs, `validate_collateral_ratio` passes
when `supply = 0`; otherwise it computes `collateral * 10000 / supply` in
`u128` (which can never overflow, so `MathOverflow` is unreachable),
truncates it mod 2^16, and fails with `CollateralRatioTooLow` unless the
truncated ratio lies in `[min_ratio, MAX_COLLATERAL_RATIO_BPS]` — the
upper bound is enforced, including on the Redeem path. -/
theorem validate_collateral_ratio_spec (collateral supply min_ratio : Nat)
    (hc : collateral < U64) :
    ValidationService.validate_collateral_ratio collateral supply min_ratio =
      (if supply = 0 then Except.ok ()
       else if min_ratio ≤ collateral * 10000 / supply % U16 ∧
           collateral * 10000 / supply % U16 ≤ MAX_COLLATERAL_RATIO_BPS then
         Except.ok ()
       else Except.error Err.CollateralRatioTooLow) := by
  unfold ValidationService.validate_collateral_ratio
  unfold checked_mul128 checked_div128
  have hmul : collateral * 10000 < U128 := by
    unfold U64 at hc
    unfold U128
    nlinarith
  by_cases hs : supply = 0
  · simp [hs]
  · simp [hs, hmul, Option.bind]

/-- C5 (witness for the amended theorem). -/
theorem validate_collateral_ratio_spec_witness :
    ValidationService.validate_collateral_ratio 15000000 10000000 10000 =
      Except.ok () := by
  rw [validate_collateral_ratio_spec 15000000 10000000 10000 (by decide)]
  decide

/-- The spec scenario vault: 1,500,000 collateral backing 1,000,000 of
locked value. -/
def scenarioVault : StablecoinVault :=
  { stablecoin_mint := 0
    authority := 0
    collateral_account := 0
    total_collateral := 1500000
    total_value_locked := 1000000
    current_ratio := 0
    last_deposit_time := 0
    last_withdrawal_time := 0
    deposit_count := 0
    withdrawal_count := 0 }

/-- C7 (counterexample): recomputing the cached ratio on the scenario vault
sets `current_ratio` to 6666, because `1000000 * 10000 / 1500000` floors
to 6666, not the 6667 the claim states. -/
theorem update_collateral_ratio_scenario_is_6666 :
    StablecoinVault.update_collateral_ratio scenarioVault =
      Except.ok { scenarioVault with current_ratio := 6666 } ∧
    1000000 * 10000 / 1500000 = 6666 ∧ (6666 : Nat) ≠ 6667 :=
  ⟨rfl, by decide, by decide⟩

/-- C7 (amended): the recomputed ratio is
`total_value_locked * 10000 / total_collateral` whenever both operands are
nonzero and the quotient fits in `u16`, and 0 when either operand is 0; a
quotient of 65536 or more is `MathOverflow` in the vault method and wraps
mod 2^16 in the validation-service variant; on the scenario vault the
quotient is 6666. -/
theorem update_collateral_ratio_spec (v : StablecoinVault)
    (h64 : v.total_value_locked < U64) :
    (v.total_value_locked = 0 ∨ v.total_collateral = 0 →
      StablecoinVault.update_collateral_ratio v =
        Except.ok { v with current_ratio := 0 }) ∧
    (v.total_value_locked ≠ 0 → v.total_collateral ≠ 0 →
      v.total_value_locked * 10000 / v.total_collateral < U16 →
      StablecoinVault.update_collateral_ratio v =
        Except.ok
          { v with current_ratio :=
              v.total_value_locked * 10000 / v.total_collateral }) ∧
    (v.total_value_locked ≠ 0 → v.total_collateral ≠ 0 →
      U16 ≤ v.total_value_locked * 10000 / v.total_collateral →
      StablecoinVault.update_collateral_ratio v =
        Except.error Err.MathOverflow) ∧
    (v.total_value_locked ≠ 0 → v.total_collateral ≠ 0 →
      ValidationService.update_collateral_ratio v =
        Except.ok
          { v with current_ratio :=
              v.total_value_locked * 10000 / v.total_collateral % U16 }) := by
  have hmul : v.total_value_locked * 10000 < U128 := by
    unfold U64 at h64
    unfold U128
    nlinarith
  refine ⟨?_, ?_, ?_, ?_⟩
  · intro h
    unfold StablecoinVault.update_collateral_ratio
    simp [h]
  · intro h1 h2 hfits
    unfold StablecoinVault.update_collateral_ratio
    unfold checked_mul128 checked_div128
    simp [h1, h2, hmul, hfits]
  · intro h1 h2 hbig
    unfold StablecoinVault.update_collateral_ratio
    unfold checked_mul128 checked_div128
    simp [h1, h2, hmul]
    omega
  · intro h1 h2
    unfold ValidationService.update_collateral_ratio
    unfold checked_mul128 checked_div128
    simp [h1, h2, hmul, Option.bind]

/-- C7 (witness for the amended theorem): instantiating on the scenario
vault yields the 6666 ratio. -/
theorem update_collateral_ratio_spec_witness :
    StablecoinVault.update_collateral_ratio scenarioVault =
      Except.ok { scenarioVault with current_ratio := 6666 } := by
  have h := (update_collateral_ratio_spec scenarioVault (by decide)).2.1
    (by decide) (by decide) (by decide)
  simpa using h

/-- Default healthy settings of a freshly initialized record. -/
def baseSettings : StablecoinSettings :=
  { fee_basis_points := 30
    max_supply := U64 - 1
    min_collateral_ratio := 15000
    mint_paused := false
    redeem_paused := false }

/-- Zeroed statistics. -/
def baseStats : StablecoinStats :=
  { total_minted := 0, total_burned := 0, total_fees := 0, holder_count := 0 }

/-- A freshly initialized issuance record (authority pubkey 1). -/
def baseMint : StablecoinMint :=
  { authority := 1
    name := [84, 83, 84]
    symbol := [84, 83]
    target_currency := [85, 83, 68]
    token_mint := 2
    stablebond_mint := 3
    price_feed := 4
    vault := 5
    current_supply := 0
    created_at := 0
    last_updated := 0
    settings := baseSettings
    stats := baseStats }

/-- The vault paired with `baseMint`. -/
def baseVault : StablecoinVault :=
  { stablecoin_mint := 6
    authority := 1
    collateral_account := 7
    total_collateral := 0
    total_value_locked := 0
    current_ratio := 0
    last_deposit_time := 0
    last_withdrawal_time := 0
    deposit_count := 0
    withdrawal_count := 0 }

/-- A freshly initialized program state. -/
def baseState : ProgramState := { mint := baseMint, vault := baseVault }

/-- `baseState` with the running supply at `u64::MAX`. -/
def maxSupplyState : ProgramState :=
  { baseState with mint := { baseMint with current_supply := U64 - 1 } }

/-- C3: the Mint handler's supply-cap computation
`current_supply.checked_add(amount).unwrap()` panics (it does not return
`MathOverflow`) when `current_supply = u64::MAX` and `amount = 1`; and the
collateral-ratio narrowing `as u16` wraps silently: a wide ratio of 70000
becomes 4464 and passes a validation it should not, instead of failing
with `MathOverflow`. -/
theorem mint_supply_cap_overflow_panics :
    mintHandler maxSupplyState 1 (Except.ok 1) 6 0 = TxResult.panicked [] ∧
    ValidationService.validate_collateral_ratio 7 1 4000 = Except.ok () ∧
    7 * 10000 / 1 = 70000 ∧ 70000 % U16 = 4464 ∧
    MAX_COLLATERAL_RATIO_BPS < 70000 :=
  ⟨rfl, rfl, by decide, by decide, by decide⟩

/-- C9: any Mint invocation whose caller is not the issuance record's
configured authority fails at account validation with `UnauthorizedMint`,
leaving the state unchanged and issuing no external token call. -/
theorem mint_requires_record_authority (a : MintAccounts) (s : ProgramState)
    (amount : Nat) (oracle : Except Err Nat) (decimals : Nat) (now : Int)
    (h : a.user ≠ s.mint.authority) :
    mintEntry a s amount oracle decimals now =
      TxResult.err Err.UnauthorizedMint s [] := by
  unfold mintEntry mintAccountsCheck
  rw [if_pos (Ne.symm h)]

/-- A Mint accounts context whose signer (pubkey 99) is not the record's
authority (pubkey 1) but whose other constraints all match `baseState`. -/
def unauthorizedMintAccounts : MintAccounts :=
  { user := 99
    stablecoin_mint_key := 6
    token_mint_key := 2
    user_token_mint := 2
    user_token_owner := 99
    user_stablebond_mint := 3
    user_stablebond_owner := 99
    vault_stablebond_key := 7
    price_feed_key := 4 }

/-- C9 (witness): a concrete non-authority caller is rejected with
`UnauthorizedMint` and no state change. -/
theorem mint_requires_record_authority_witness :
    mintEntry unauthorizedMintAccounts baseState 1000 (Except.ok 1) 6 0 =
      TxResult.err Err.UnauthorizedMint baseState [] :=
  mint_requires_record_authority unauthorizedMintAccounts baseState 1000
    (Except.ok 1) 6 0 (by decide)

/-- An oracle account with mantissa 200000 (confidence therefore 200000,
above the default bound) whose round opened at time 1. -/
def staleWideSample : OracleAccount :=
  OracleAccount.loaded (some { mantissa := 200000, scale := 6 }) 1

/-- C10 (counterexample): the claim says a sample with mantissa above
100000 fails with `InvalidOraclePrice` regardless of staleness; but at
time 400 (399 seconds after the round opened, beyond the 300-second
limit) the same sample fails with `StaleOraclePrice` instead, because
staleness is checked before confidence. -/
theorem oracle_stale_high_mantissa_err_code :
    OracleService.verify_oracle_price staleWideSample 400 =
      Except.error Err.StaleOraclePrice ∧
    Err.StaleOraclePrice ≠ Err.InvalidOraclePrice ∧
    MAX_ORACLE_CONFIDENCE < wrap64 200000 :=
  ⟨rfl, by decide, by decide⟩

/-- C10 (amended): `from_switchboard` sets `confidence` to the sample's own
(u64-wrapped) mantissa; under the default maximum confidence of 100000,
price verification of a loadable sample whose wrapped mantissa exceeds
100000 always fails — with `InvalidOraclePrice` when the sample is not
stale (positivity holds automatically), and with `StaleOraclePrice` when
it is stale, since staleness is checked before confidence. -/
theorem oracle_confidence_is_mantissa_spec (res : SwitchboardDecimal)
    (t now : Int) (ht : 0 < t)
    (hm : MAX_ORACLE_CONFIDENCE < wrap64 res.mantissa) :
    (OraclePrice.from_switchboard res t).confidence = wrap64 res.mantissa ∧
    OracleService.verify_oracle_price (OracleAccount.loaded (some res) t) now =
      (if (OraclePrice.from_switchboard res t).is_stale now then
        Except.error Err.StaleOraclePrice
      else Except.error Err.InvalidOraclePrice) := by
  refine ⟨rfl, ?_⟩
  have hv : (OraclePrice.from_switchboard res t).value ≠ 0 := by
    have hnz : wrap64 res.mantissa ≠ 0 := by
      unfold MAX_ORACLE_CONFIDENCE at hm
      omega
    simpa [OraclePrice.from_switchboard] using hnz
  by_cases hst : (OraclePrice.from_switchboard res t).is_stale now
  · simp [OracleService.verify_oracle_price, OracleService.get_price, ht,
      OracleService.validate_price, hv, hst]
  · have hcf : MAX_ORACLE_CONFIDENCE <
        (OraclePrice.from_switchboard res t).confidence := by
      simpa [OraclePrice.from_switchboard] using hm
    simp [OracleService.verify_oracle_price, OracleService.get_price, ht,
      OracleService.validate_price, hv, hst, hcf]

/-- C10 (witness for the amended theorem): a fresh sample with mantissa
200000 fails with `InvalidOraclePrice`. -/
theorem oracle_confidence_is_mantissa_spec_witness :
    OracleService.verify_oracle_price
      (OracleAccount.loaded (some { mantissa := 200000, scale := 6 }) 1) 100 =
      Except.error Err.InvalidOraclePrice := by
  rw [(oracle_confidence_is_mantissa_spec { mantissa := 200000, scale := 6 }
    1 100 (by decide) (by decide)).2]
  decide

/-- Inversion for a successful `u64` checked add. -/
theorem checked_add64_some {a b c : Nat} (h : checked_add64 a b = some c) :
    c = a + b ∧ a + b < U64 := by
  unfold checked_add64 at h
  split_ifs at h with hb <;> simp_all

/-- Inversion for a successful `u64` checked sub. -/
theorem checked_sub64_some {a b c : Nat} (h : checked_sub64 a b = some c) :
    c = a - b ∧ b ≤ a := by
  unfold checked_sub64 at h
  split_ifs at h with hb <;> simp_all

/-- Inversion for a successful `u32` checked add. -/
theorem checked_add32_some {a b c : Nat} (h : checked_add32 a b = some c) :
    c = a + b ∧ a + b < U32 := by
  unfold checked_add32 at h
  split_ifs at h with hb <;> simp_all

/-- Inversion for the fee computation
`amount.checked_mul(bps).and_then(|v| v.checked_div(10000))`. -/
theorem fee_chain_some {amount bps c : Nat}
    (h : (checked_mul64 amount bps).bind (fun v => checked_div64 v 10000) =
      some c) :
    c = amount * bps / 10000 ∧ amount * bps < U64 := by
  unfold checked_mul64 checked_div64 at h
  split_ifs at h with h1 <;> simp_all

/-- A successful `validate_collateral_ratio` with nonzero supply implies
the wide floor ratio is at least the minimum. -/
theorem validate_collateral_ratio_ok_ge_min {c s m : Nat} (hs : s ≠ 0)
    (h : ValidationService.validate_collateral_ratio c s m = Except.ok ()) :
    m ≤ c * 10000 / s := by
  unfold ValidationService.validate_collateral_ratio at h
  rw [if_neg hs] at h
  rcases hw : (checked_mul128 c 10000).bind (fun v => checked_div128 v s)
    with _ | wide
  · rw [hw] at h
    exact absurd h (by simp)
  · rw [hw] at h
    dsimp only at h
    split_ifs at h with h2
    · have hmul : c * 10000 < U128 := by
        by_contra hc
        unfold checked_mul128 at hw
        rw [if_neg hc] at hw
        exact absurd hw (by simp)
      unfold checked_mul128 checked_div128 at hw
      rw [if_pos hmul, Option.some_bind, if_neg hs] at hw
      injection hw with hw2
      subst hw2
      exact le_trans h2.1 (Nat.mod_le _ _)

/-- The fee chain `checked_mul` then `checked_div 10000` as a single
conditional. -/
theorem fee_chain_eq (amount bps : Nat) :
    ((checked_mul64 amount bps).bind fun v => checked_div64 v 10000) =
      (if amount * bps < U64 then some (amount * bps / 10000) else none) := by
  unfold checked_mul64 checked_div64
  by_cases h1 : amount * bps < U64
  · rw [if_pos h1, if_pos h1, Option.some_bind, if_neg (by decide)]
  · rw [if_neg h1, if_neg h1, Option.none_bind]

/-- The validation-service ratio recomputation can only fail with
`MathOverflow`. -/
theorem vsucr_error_shape {v : StablecoinVault} {e : Err}
    (h : ValidationService.update_collateral_ratio v = Except.error e) :
    e = Err.MathOverflow := by
  unfold ValidationService.update_collateral_ratio at h
  split_ifs at h with h1
  rcases hw : (checked_mul128 v.total_value_locked 10000).bind
      (fun x => checked_div128 x v.total_collateral) with _ | r
  · rw [hw] at h
    injection h with h2
    exact h2.symm
  · rw [hw] at h
    exact absurd h (by simp)

/-- Inversion of a successful Mint: the supply cap was checked against
`current_supply + amount`, the settings are untouched, and the new supply
is `current_supply + amount + fee`. -/
theorem mintHandler_ok_inv (s : ProgramState) (amount : Nat)
    (oracle : Except Err Nat) (decimals : Nat) (now : Int)
    (s2 : ProgramState) (calls : List ExtCall)
    (h : mintHandler s amount oracle decimals now = TxResult.ok s2 calls) :
    s.mint.current_supply + amount ≤ s.mint.settings.max_supply ∧
    s2.mint.settings = s.mint.settings ∧
    s2.mint.current_supply = s.mint.current_supply + amount +
      amount * s.mint.settings.fee_basis_points / 10000 := by
  unfold mintHandler at h
  repeat' (first
    | exact TxResult.noConfusion h
    | split at h
    | dsimp only at h)
  injection h with h1 h2
  subst h1
  refine ⟨?_, by rfl, ?_⟩
  all_goals simp_all [checked_add64, checked_add32, fee_chain_eq,
    Option.ite_none_right_eq_some]
  all_goals omega

/-- Inversion of a successful Redeem: settings untouched, supply does not
increase, and the remaining-state collateral-ratio gate was passed for the
exact post-state collateral and supply. -/
theorem redeemHandler_ok_inv (s : ProgramState) (amount user_balance : Nat)
    (oracle : Except Err Nat) (decimals : Nat) (now : Int)
    (s2 : ProgramState) (calls : List ExtCall)
    (h : redeemHandler s amount user_balance oracle decimals now =
      TxResult.ok s2 calls) :
    s2.mint.settings = s.mint.settings ∧
    s2.mint.current_supply ≤ s.mint.current_supply ∧
    (if 0 < s2.mint.current_supply then
      ValidationService.validate_collateral_ratio s2.vault.total_collateral
        s2.mint.current_supply s.mint.settings.min_collateral_ratio
    else Except.ok ()) = Except.ok () := by
  unfold redeemHandler at h
  repeat' (first
    | exact TxResult.noConfusion h
    | split at h
    | dsimp only at h)
  injection h with h1 h2
  subst h1
  refine ⟨by rfl, ?_, ?_⟩
  all_goals simp_all [checked_add64, checked_add32, checked_sub64,
    fee_chain_eq, Option.ite_none_right_eq_some]
  all_goals omega

/-- Any Mint error result either aborted cleanly (no external call, state
untouched) or is a `MathOverflow` raised after the external transfer and
mint requests were issued. -/
theorem mint_err_shape (s : ProgramState) (amount : Nat)
    (oracle : Except Err Nat) (decimals : Nat) (now : Int)
    (e : Err) (s2 : ProgramState) (calls : List ExtCall)
    (h : mintHandler s amount oracle decimals now = TxResult.err e s2 calls) :
    (calls = [] ∧ s2 = s) ∨ (e = Err.MathOverflow ∧ calls ≠ []) := by
  unfold mintHandler at h
  repeat' (first
    | exact TxResult.noConfusion h
    | split at h
    | dsimp only at h)
  all_goals
    (injection h with h1 h2 h3
     subst h1
     subst h2
     subst h3
     first
     | exact Or.inl ⟨rfl, rfl⟩
     | exact Or.inr ⟨rfl, by simp⟩
     | exact Or.inr ⟨vsucr_error_shape (by assumption), by simp⟩)

/-- Any Redeem error result either aborted cleanly or is a `MathOverflow`
raised after the external burn and transfer requests were issued. -/
theorem redeem_err_shape (s : ProgramState) (amount user_balance : Nat)
    (oracle : Except Err Nat) (decimals : Nat) (now : Int)
    (e : Err) (s2 : ProgramState) (calls : List ExtCall)
    (h : redeemHandler s amount user_balance oracle decimals now =
      TxResult.err e s2 calls) :
    (calls = [] ∧ s2 = s) ∨ (e = Err.MathOverflow ∧ calls ≠ []) := by
  unfold redeemHandler at h
  repeat' (first
    | exact TxResult.noConfusion h
    | split at h
    | dsimp only at h)
  all_goals
    (injection h with h1 h2 h3
     subst h1
     subst h2
     subst h3
     first
     | exact Or.inl ⟨rfl, rfl⟩
     | exact Or.inr ⟨rfl, by simp⟩)

/-- A successful UpdateSettings preserves the supply cap and the 10000
floor on the minimum collateral ratio. -/
theorem updateSettings_ok_preserves (caller : Nat) (s : StablecoinMint)
    (params : UpdateSettingsParams) (now : Int) (s2 : StablecoinMint)
    (h : updateSettingsEntry caller s params now = Except.ok s2) :
    (s.current_supply ≤ s.settings.max_supply →
      s2.current_supply ≤ s2.settings.max_supply) ∧
    (MIN_COLLATERAL_RATIO_BPS ≤ s.settings.min_collateral_ratio →
      MIN_COLLATERAL_RATIO_BPS ≤ s2.settings.min_collateral_ratio) := by
  obtain ⟨mr, fb, ms, mp, rp⟩ := params
  unfold updateSettingsEntry updateSettingsHandler at h
  split_ifs at h with h1 h2
  cases mr <;> cases fb <;> cases ms <;> cases mp <;> cases rp <;>
    dsimp only at h <;> (try split_ifs at h with h3) <;> simp_all <;>
    (try subst h) <;> refine ⟨fun hpre => ?_, fun hpre => ?_⟩ <;>
    simp_all <;> omega

/-- A successful UpdateMetadata touches neither the settings nor the
running supply. -/
theorem updateMetadata_ok_preserves (caller : Nat) (s : StablecoinMint)
    (params : UpdateMetadataParams) (now : Int) (s2 : StablecoinMint)
    (h : updateMetadataEntry caller s params now = Except.ok s2) :
    s2.settings = s.settings ∧ s2.current_supply = s.current_supply := by
  obtain ⟨nm, sy, ic⟩ := params
  unfold updateMetadataEntry at h
  split_ifs at h with h1
  cases nm <;> cases sy <;> dsimp only at h <;>
    (try split_ifs at h) <;> simp_all <;> (try subst h) <;> simp_all

/-- A successful Initialize establishes all three record invariants. -/
theorem initializeHandler_ok_bounds (authority : Nat)
    (name symbol target_currency : List Nat) (oracle_mantissa : Option Int)
    (k1 k2 k3 k4 k5 k6 : Nat) (now : Int) (st : ProgramState)
    (h : initializeHandler authority name symbol target_currency
      oracle_mantissa k1 k2 k3 k4 k5 k6 now = Except.ok st) :
    st.mint.current_supply ≤ st.mint.settings.max_supply ∧
    MIN_COLLATERAL_RATIO_BPS ≤ st.mint.settings.min_collateral_ratio ∧
    st.mint.settings.min_collateral_ratio ≤ MAX_COLLATERAL_RATIO_BPS ∧
    st.mint.settings.fee_basis_points ≤ MAX_FEE_BPS := by
  unfold initializeHandler at h
  split_ifs at h with h1 h2 h3
  cases oracle_mantissa <;> dsimp only at h <;> (try split_ifs at h) <;>
    simp_all <;> (try subst h) <;> refine ⟨?_, ?_, ?_, ?_⟩ <;>
    simp [MIN_COLLATERAL_RATIO_BPS, MAX_COLLATERAL_RATIO_BPS, MAX_FEE_BPS,
      DEFAULT_COLLATERAL_RATIO_BPS, U64] <;> omega

/-- The state after minting 10000 units against price 1 (collateral floors
to 0) from the fresh `baseState`. -/
def mintNoRatioEnd : ProgramState :=
  { mint :=
    { baseMint with
        current_supply := 10030
        stats := { baseStats with total_minted := 10000, total_fees := 30 } }
    vault := { baseVault with total_value_locked := 10000, deposit_count := 1 } }

/-- C1 (counterexample): the Mint handler performs no collateral-ratio
check; from the fresh state, minting 10000 units at standardized price 1
succeeds while depositing 0 collateral, leaving positive supply backed by
a 0 bps ratio, far below the 15000 bps minimum. -/
theorem mint_below_min_ratio_accepted :
    mintHandler baseState 10000 (Except.ok 1) 6 0 =
      TxResult.ok mintNoRatioEnd [ExtCall.transfer 0, ExtCall.mintTo 10030] ∧
    0 < mintNoRatioEnd.mint.current_supply ∧
    mintNoRatioEnd.vault.total_collateral * 10000 /
        mintNoRatioEnd.mint.current_supply <
      mintNoRatioEnd.mint.settings.min_collateral_ratio :=
  ⟨rfl, by decide, by decide⟩

/-- C1 (amended): the solvency floor does hold after every successful
Redeem — if the remaining supply is positive, the remaining collateral
times 10000 over the remaining supply is at least the configured minimum
ratio (the Redeem handler's gate validates exactly the post-state values);
Mint, by contrast, enforces no such bound (see the counterexample). -/
theorem redeem_preserves_min_ratio (s : ProgramState)
    (amount user_balance : Nat) (oracle : Except Err Nat) (decimals : Nat)
    (now : Int) (s2 : ProgramState) (calls : List ExtCall)
    (h : redeemHandler s amount user_balance oracle decimals now =
      TxResult.ok s2 calls)
    (hpos : 0 < s2.mint.current_supply) :
    s.mint.settings.min_collateral_ratio ≤
      s2.vault.total_collateral * 10000 / s2.mint.current_supply := by
  obtain ⟨-, -, hchk⟩ :=
    redeemHandler_ok_inv s amount user_balance oracle decimals now s2 calls h
  rw [if_pos hpos] at hchk
  exact validate_collateral_ratio_ok_ge_min (Nat.pos_iff_ne_zero.mp hpos) hchk

/-- A healthy 200-percent-collateralized state with zero fee. -/
def redeemStartState : ProgramState :=
  { mint :=
    { baseMint with
        current_supply := 1000000
        settings :=
          { baseSettings with fee_basis_points := 0,
                              min_collateral_ratio := 10000 } }
    vault :=
      { baseVault with total_collateral := 2000000,
                       total_value_locked := 1000000 } }

/-- `redeemStartState` after redeeming 1000 units at price 1. -/
def redeemEndState : ProgramState :=
  { mint :=
    { baseMint with
        current_supply := 999000
        settings :=
          { baseSettings with fee_basis_points := 0,
                              min_collateral_ratio := 10000 }
        stats := { baseStats with total_burned := 1000 } }
    vault :=
      { baseVault with total_collateral := 1999000,
                       total_value_locked := 999000,
                       withdrawal_count := 1 } }

/-- C1 (witness for the amended theorem): a concrete successful redeem
leaves the remaining state at or above the minimum ratio. -/
theorem redeem_preserves_min_ratio_witness :
    redeemStartState.mint.settings.min_collateral_ratio ≤
      redeemEndState.vault.total_collateral * 10000 /
        redeemEndState.mint.current_supply :=
  redeem_preserves_min_ratio redeemStartState 1000 1000000
    (Except.ok 1000000) 6 0 redeemEndState
    [ExtCall.burn 1000, ExtCall.transfer 1000] (by rfl) (by decide)

/-- An under-backed state: large supply and collateral but zero recorded
locked value, with zero fee. -/
def redeemPartialStart : ProgramState :=
  { mint :=
    { baseMint with
        current_supply := 1000000000
        settings :=
          { baseSettings with fee_basis_points := 0,
                              min_collateral_ratio := 10000 } }
    vault := { baseVault with total_collateral := 1000000000 } }

/-- `redeemPartialStart` with the vault's collateral already decremented —
the in-memory state at the point the redeem bookkeeping fails. -/
def redeemPartialMid : ProgramState :=
  { mint :=
    { baseMint with
        current_supply := 1000000000
        settings :=
          { baseSettings with fee_basis_points := 0,
                              min_collateral_ratio := 10000 } }
    vault := { baseVault with total_collateral := 999999000 } }

/-- C2 (counterexample): a Redeem whose `total_value_locked` subtraction
overflows fails with `MathOverflow` only after the external burn and
transfer requests have been issued and after the vault's
`total_collateral` has already been written — the error does not abort
before the external token-ledger calls, and the in-memory state at the
failure point differs from the initial state. -/
theorem redeem_error_after_external_calls :
    redeemHandler redeemPartialStart 1000 1000000000 (Except.ok 1000000) 6 0 =
      TxResult.err Err.MathOverflow redeemPartialMid
        [ExtCall.burn 1000, ExtCall.transfer 1000] ∧
    ([ExtCall.burn 1000, ExtCall.transfer 1000] ≠ ([] : List ExtCall)) ∧
    redeemPartialMid ≠ redeemPartialStart :=
  ⟨rfl, by decide, by decide⟩

/-- C2 (amended): every Mint or Redeem error raised by a precondition or
by the collateral/fee computations aborts with no external call and no
state change; but the handlers issue their external transfer/mint/burn
requests before the record bookkeeping, so the arithmetic of that
bookkeeping can still fail — every error with external calls issued is a
`MathOverflow` raised after both of the transition's external requests. -/
theorem handlers_abort_shape_spec :
    (∀ (s : ProgramState) (amount : Nat) (oracle : Except Err Nat)
      (decimals : Nat) (now : Int) (e : Err) (s2 : ProgramState)
      (calls : List ExtCall),
      mintHandler s amount oracle decimals now = TxResult.err e s2 calls →
      (calls = [] ∧ s2 = s) ∨ (e = Err.MathOverflow ∧ calls ≠ [])) ∧
    (∀ (s : ProgramState) (amount user_balance : Nat)
      (oracle : Except Err Nat) (decimals : Nat) (now : Int) (e : Err)
      (s2 : ProgramState) (calls : List ExtCall),
      redeemHandler s amount user_balance oracle decimals now =
        TxResult.err e s2 calls →
      (calls = [] ∧ s2 = s) ∨ (e = Err.MathOverflow ∧ calls ≠ [])) :=
  ⟨mint_err_shape, redeem_err_shape⟩

/-- `baseState` with minting paused. -/
def pausedMintState : ProgramState :=
  { baseState with
      mint := { baseMint with
        settings := { baseSettings with mint_paused := true } } }

/-- C2 (witness for the amended theorem): a Mint rejected by the pause
gate leaves the state untouched with no external call. -/
theorem handlers_abort_shape_spec_witness :
    (([] : List ExtCall) = [] ∧ pausedMintState = pausedMintState) ∨
      (Err.MintingPaused = Err.MathOverflow ∧ ([] : List ExtCall) ≠ []) :=
  handlers_abort_shape_spec.1 pausedMintState 1000 (Except.ok 1) 6 0
    Err.MintingPaused pausedMintState [] (by rfl)

/-- An UpdateSettings request raising the fee to 2000 bps (20 percent). -/
def feeRaiseParams : UpdateSettingsParams :=
  { min_collateral_ratio := none
    fee_basis_points := some 2000
    max_supply := none
    mint_paused := none
    redeem_paused := none }

/-- `baseMint` after the fee raise goes through. -/
def feeRaisedMint : StablecoinMint :=
  { baseMint with
      last_updated := 5
      settings := { baseSettings with fee_basis_points := 2000 } }

/-- C4 (counterexample): UpdateSettings happily sets `fee_basis_points` to
2000, above the invariant bound `MAX_FEE_BPS = 1000` — the handler never
validates the new fee. -/
theorem update_settings_fee_unbounded :
    updateSettingsEntry 1 baseMint feeRaiseParams 5 = Except.ok feeRaisedMint ∧
    MAX_FEE_BPS < feeRaisedMint.settings.fee_basis_points :=
  ⟨rfl, by decide⟩

/-- C4 (amended): Initialize establishes all three record invariants;
UpdateSettings preserves `current_supply ≤ max_supply` and the 10000
floor on `min_collateral_ratio` but enforces neither `fee_bps ≤ 1000` nor
the 30000 ceiling; UpdateMetadata touches neither settings nor supply;
Redeem never increases the supply (so it preserves the cap); and a
successful Mint can exceed `max_supply` by up to the fee — its supply
check covers `current_supply + amount` but it then adds `amount + fee`. -/
theorem issuance_record_invariants_spec :
    (∀ (caller : Nat) (s : StablecoinMint) (params : UpdateSettingsParams)
      (now : Int) (s2 : StablecoinMint),
      updateSettingsEntry caller s params now = Except.ok s2 →
      (s.current_supply ≤ s.settings.max_supply →
        s2.current_supply ≤ s2.settings.max_supply) ∧
      (MIN_COLLATERAL_RATIO_BPS ≤ s.settings.min_collateral_ratio →
        MIN_COLLATERAL_RATIO_BPS ≤ s2.settings.min_collateral_ratio)) ∧
    (∀ (caller : Nat) (s : StablecoinMint) (params : UpdateMetadataParams)
      (now : Int) (s2 : StablecoinMint),
      updateMetadataEntry caller s params now = Except.ok s2 →
      s2.settings = s.settings ∧ s2.current_supply = s.current_supply) ∧
    (∀ (authority : Nat) (name symbol target_currency : List Nat)
      (oracle_mantissa : Option Int) (k1 k2 k3 k4 k5 k6 : Nat) (now : Int)
      (st : ProgramState),
      initializeHandler authority name symbol target_currency oracle_mantissa
        k1 k2 k3 k4 k5 k6 now = Except.ok st →
      st.mint.current_supply ≤ st.mint.settings.max_supply ∧
      MIN_COLLATERAL_RATIO_BPS ≤ st.mint.settings.min_collateral_ratio ∧
      st.mint.settings.min_collateral_ratio ≤ MAX_COLLATERAL_RATIO_BPS ∧
      st.mint.settings.fee_basis_points ≤ MAX_FEE_BPS) ∧
    (∀ (s : ProgramState) (amount user_balance : Nat)
      (oracle : Except Err Nat) (decimals : Nat) (now : Int)
      (s2 : ProgramState) (calls : List ExtCall),
      redeemHandler s amount user_balance oracle decimals now =
        TxResult.ok s2 calls →
      s.mint.current_supply ≤ s.mint.settings.max_supply →
      s2.mint.current_supply ≤ s2.mint.settings.max_supply) ∧
    (∀ (s : ProgramState) (amount : Nat) (oracle : Except Err Nat)
      (decimals : Nat) (now : Int) (s2 : ProgramState)
      (calls : List ExtCall),
      mintHandler s amount oracle decimals now = TxResult.ok s2 calls →
      s2.mint.current_supply ≤ s2.mint.settings.max_supply +
        amount * s.mint.settings.fee_basis_points / 10000) := by
  refine ⟨updateSettings_ok_preserves, updateMetadata_ok_preserves,
    initializeHandler_ok_bounds, ?_, ?_⟩
  · intro s amount user_balance oracle decimals now s2 calls h hpre
    obtain ⟨hset, hle, -⟩ :=
      redeemHandler_ok_inv s amount user_balance oracle decimals now s2 calls h
    rw [hset]
    omega
  · intro s amount oracle decimals now s2 calls h
    obtain ⟨hcap, hset, hsup⟩ :=
      mintHandler_ok_inv s amount oracle decimals now s2 calls h
    rw [hset, hsup]
    omega

/-- C4 (witness for the amended theorem): a concrete Mint that overshoots
its cap only by the fee — from the fresh state, the new supply 10030 is
within `max_supply + fee`. -/
theorem issuance_record_invariants_spec_witness :
    mintNoRatioEnd.mint.current_supply ≤
      mintNoRatioEnd.mint.settings.max_supply +
        10000 * baseState.mint.settings.fee_basis_points / 10000 :=
  issuance_record_invariants_spec.2.2.2.2 baseState 10000 (Except.ok 1) 6 0
    mintNoRatioEnd [ExtCall.transfer 0, ExtCall.mintTo 10030] (by rfl)

/-- C6 (counterexample): with exactly two valid samples (values 10 and 20),
`get_median_price` returns the element at index `len / 2 = 1` of the
ascending order, which is the HIGHER value 20, not the lower value 10 the
claim states. -/
theorem get_median_two_samples_upper :
    OracleService.get_median_price
      [OracleAccount.loaded (some { mantissa := 10, scale := 6 }) 1,
       OracleAccount.loaded (some { mantissa := 20, scale := 6 }) 1] 100 =
      Except.ok
        { value := 20, decimals := 6, last_updated := 1, confidence := 20 } ∧
    (20 : Nat) ≠ 10 :=
  ⟨rfl, by decide⟩

/-- C6 (amended): over 1 to 3 oracle accounts, `get_median_price` silently
drops every sample that fails loading or validation; it fails with
`InvalidOraclePrice` when no valid sample remains, and otherwise returns a
valid sample that is a median by sorted numeric order: fewer than or
exactly `len / 2` valid samples lie strictly below it and at most
`len - 1 - len / 2` lie strictly above it — so with exactly 2 remaining
samples (index `len / 2 = 1`) the HIGHER of the two is returned. -/
theorem get_median_price_spec (accounts : List OracleAccount) (now : Int)
    (h1 : 1 ≤ accounts.length) (h3 : accounts.length ≤ 3) :
    (validOraclePrices accounts now = [] →
      OracleService.get_median_price accounts now =
        Except.error Err.InvalidOraclePrice) ∧
    (∀ p, OracleService.get_median_price accounts now = Except.ok p →
      p ∈ validOraclePrices accounts now ∧
      (validOraclePrices accounts now).countP
          (fun q => decide (q.value < p.value)) ≤
        (validOraclePrices accounts now).length / 2 ∧
      (validOraclePrices accounts now).countP
          (fun q => decide (p.value < q.value)) +
        (validOraclePrices accounts now).length / 2 + 1 ≤
        (validOraclePrices accounts now).length) := by
  have hlen : (validOraclePrices accounts now).length ≤ 3 := by
    unfold validOraclePrices
    calc (List.filterMap _ (accounts.take MAX_ORACLE_COUNT)).length
        ≤ (accounts.take MAX_ORACLE_COUNT).length :=
          List.length_filterMap_le _ _
      _ ≤ MAX_ORACLE_COUNT := by
          simpa using List.length_take_le MAX_ORACLE_COUNT accounts
  constructor
  · intro hnil
    simp [OracleService.get_median_price, MIN_ORACLE_COUNT, MAX_ORACLE_COUNT,
      hnil, h1, h3]
  · intro p hp
    unfold OracleService.get_median_price at hp
    rw [if_pos (⟨h1, h3⟩ :
      MIN_ORACLE_COUNT ≤ accounts.length ∧
        accounts.length ≤ MAX_ORACLE_COUNT)] at hp
    generalize hL : validOraclePrices accounts now = L at hp hlen ⊢
    rcases L with _ | ⟨a, L1⟩
    · simp at hp
    rcases L1 with _ | ⟨b, L2⟩
    · simp [sortByValue, insertByValue] at hp
      subst hp
      simp [List.countP_cons]
    rcases L2 with _ | ⟨c, L3⟩
    · by_cases hab : a.value < b.value <;>
        simp [sortByValue, insertByValue, hab] at hp <;> subst hp <;>
        simp [List.countP_cons, hab] <;> (try split_ifs) <;> omega
    rcases L3 with _ | ⟨d, L4⟩
    · by_cases hbc : b.value < c.value <;>
        by_cases hab : a.value < b.value <;>
        by_cases hac : a.value < c.value <;>
        simp [sortByValue, insertByValue, hbc, hab, hac] at hp <;> subst hp <;>
        simp [List.countP_cons, hbc, hab, hac] <;> (try split_ifs) <;> omega
    · simp at hlen

/-- C6 (witness for the amended theorem): one account whose only sample is
stale leaves no valid sample, so the median fails with
`InvalidOraclePrice`. -/
theorem get_median_price_spec_witness :
    OracleService.get_median_price
      [OracleAccount.loaded (some { mantissa := 10, scale := 6 }) 1] 1000 =
      Except.error Err.InvalidOraclePrice :=
  (get_median_price_spec
    [OracleAccount.loaded (some { mantissa := 10, scale := 6 }) 1] 1000
    (by decide) (by decide)).1 (by rfl)
